import Mathlib

/- Shallow embedding of the training script
   examples/training/object_detection/pascal_voc/retina_net.py.
   Machine floats are modelled as exact rationals; tf.data pipelines are
   modelled both structurally (as an expression tree recording the calls the
   script makes, in order) and semantically (Lean functions translating the
   per-element mapped functions of the script). -/

namespace VocRetinaNet

/-- Module-level constant EPOCHS = 100 of the script. -/
def EPOCHS : Nat := 100

/-- Module-level constant CHECKPOINT_PATH = "checkpoint/". -/
def CHECKPOINT_PATH : String := "checkpoint/"

/-- BATCH_SIZE = 4. -/
def BATCH_SIZE : Nat := 4

/-- GLOBAL_BATCH_SIZE = BATCH_SIZE * strategy.num_replicas_in_sync; the number
of replicas is a parameter of the embedding. -/
def GLOBAL_BATCH_SIZE (numReplicas : Nat) : Nat := BATCH_SIZE * numReplicas

/-- IMG_SIZE = 640. -/
def IMG_SIZE : Nat := 640

/-- One flags.DEFINE_string call: the flag name and its default value. -/
structure FlagDef where
  name : String
  defaultValue : String
  deriving DecidableEq

/-- The two command-line flags the script defines (weights_name and
tensorboard_path), with their default values. -/
def scriptFlagDefs : List FlagDef :=
  [⟨"weights_name", "weights_\x7bepoch:02d\x7d.h5"⟩,
   ⟨"tensorboard_path", "logs"⟩]

/-- The parsed flag values available to the script after FLAGS(sys.argv). -/
structure Flags where
  weights_name : String
  tensorboard_path : String
  deriving DecidableEq

/-- A Python exception, as far as the script distinguishes them:
ValueError versus any other exception. -/
inductive PyError where
  | valueError
  | other (msg : String)
  deriving DecidableEq

/-- The distribution strategy the script may select. The TPU cluster resolver
returned by a successful connect is abstracted to a number. -/
inductive Strategy where
  | tpuStrategy (resolver : Nat)
  | mirroredStrategy
  deriving DecidableEq

/-- The strategy-selection block of the script: try
TPUClusterResolver.connect() and wrap the result in TPUStrategy; the except
clause catches exactly ValueError and falls back to MirroredStrategy; any
other exception propagates uncaught (modelled as an error result). -/
def buildStrategy (connectResult : Except PyError Nat) : Except PyError Strategy :=
  match connectResult with
  | .ok tpu => .ok (.tpuStrategy tpu)
  | .error .valueError => .ok .mirroredStrategy
  | .error e => .error e

/-- The per-element functions the script maps over its tf.data pipelines, in
the order they appear in the source: the first unpackage_inputs (taking a
bounding-box format), the Augmenter, the evaluation Resizing layer, the
second (tuple-returning) unpackage_inputs, and pad_fn (which depends on
GLOBAL_BATCH_SIZE). -/
inductive MapFn where
  | unpackDict (format : String)
  | augmenterFn
  | evalResizingFn
  | unpackTuple
  | padFn (batchSize : Nat)
  deriving DecidableEq

/-- A tf.data dataset expression: which loads, concatenations, maps, ragged
batchings, shuffles and prefetches the script applies, in order. -/
inductive DatasetExpr where
  | load (name split : String) (shuffleFiles : Bool)
  | concatenate (a b : DatasetExpr)
  | mapD (fn : MapFn) (d : DatasetExpr)
  | raggedBatch (batchSize : Nat) (dropRemainder : Bool) (d : DatasetExpr)
  | shuffleD (buffer : Nat) (d : DatasetExpr)
  | prefetchD (d : DatasetExpr)
  deriving DecidableEq

/-- The mapped functions of a dataset expression, in application order. -/
def DatasetExpr.mapped : DatasetExpr → List MapFn
  | .load _ _ _ => []
  | .concatenate a b => a.mapped ++ b.mapped
  | .mapD f d => d.mapped ++ [f]
  | .raggedBatch _ _ d => d.mapped
  | .shuffleD _ d => d.mapped
  | .prefetchD d => d.mapped

/-- The shuffle buffer sizes applied in a dataset expression. -/
def DatasetExpr.shuffles : DatasetExpr → List Nat
  | .load _ _ _ => []
  | .concatenate a b => a.shuffles ++ b.shuffles
  | .mapD _ d => d.shuffles
  | .raggedBatch _ _ d => d.shuffles
  | .shuffleD n d => d.shuffles ++ [n]
  | .prefetchD d => d.shuffles

/-- The tfds.load calls underlying a dataset expression, in order:
dataset name, split, shuffle_files. -/
def DatasetExpr.loadsList : DatasetExpr → List (String × String × Bool)
  | .load n s f => [(n, s, f)]
  | .concatenate a b => a.loadsList ++ b.loadsList
  | .mapD _ d => d.loadsList
  | .raggedBatch _ _ d => d.loadsList
  | .shuffleD _ d => d.loadsList
  | .prefetchD d => d.loadsList

/-- The batching steps of a dataset expression: batch size and drop_remainder. -/
def DatasetExpr.batchings : DatasetExpr → List (Nat × Bool)
  | .load _ _ _ => []
  | .concatenate a b => a.batchings ++ b.batchings
  | .mapD _ d => d.batchings
  | .raggedBatch n r d => d.batchings ++ [(n, r)]
  | .shuffleD _ d => d.batchings
  | .prefetchD d => d.batchings

/-- The underlying source of a dataset expression, with all maps, batchings,
shuffles and prefetches stripped. -/
def DatasetExpr.base : DatasetExpr → DatasetExpr
  | .mapD _ d => d.base
  | .raggedBatch _ _ d => d.base
  | .shuffleD _ d => d.base
  | .prefetchD d => d.base
  | d => d

/-- The training pipeline of the script, as built in the source:
voc/2007 train+validation concatenated with voc/2012 train+validation, then
the first unpackage_inputs with format xywh, dense_to_ragged_batch with
drop_remainder, shuffle with buffer 8 * num_replicas, prefetch, the
augmenter, the second unpackage_inputs, and pad_fn. -/
def train_ds (numReplicas : Nat) : DatasetExpr :=
  .mapD (.padFn (GLOBAL_BATCH_SIZE numReplicas))
    (.mapD .unpackTuple
      (.mapD .augmenterFn
        (.prefetchD
          (.shuffleD (8 * numReplicas)
            (.raggedBatch (GLOBAL_BATCH_SIZE numReplicas) true
              (.mapD (.unpackDict "xywh")
                (.concatenate
                  (.load "voc/2007" "train+validation" true)
                  (.load "voc/2012" "train+validation" true))))))))

/-- The evaluation pipeline of the script: voc/2007 test, then the first
unpackage_inputs with format xywh, dense_to_ragged_batch with drop_remainder,
prefetch, the deterministic Resizing layer, the second unpackage_inputs, and
pad_fn. -/
def eval_ds (numReplicas : Nat) : DatasetExpr :=
  .mapD (.padFn (GLOBAL_BATCH_SIZE numReplicas))
    (.mapD .unpackTuple
      (.mapD .evalResizingFn
        (.prefetchD
          (.raggedBatch (GLOBAL_BATCH_SIZE numReplicas) true
            (.mapD (.unpackDict "xywh")
              (.load "voc/2007" "test" false))))))

/-- A KerasCV preprocessing layer, as configured by the script. -/
inductive AugLayer where
  | randomFlip (mode : String) (boundingBoxFormat : String)
  | jitteredResize (targetSize : Nat × Nat) (scaleFactor : Rat × Rat)
      (boundingBoxFormat : String)
  | mixUp
  | maybeApply (inner : AugLayer) (rate : Rat) (batchwise : Bool)
  | resizing (height width : Nat) (boundingBoxFormat : String)
      (padToAspect : Bool)
  deriving DecidableEq

/-- The augmenter of the script: RandomFlip (horizontal, xywh),
JitteredResize to 640x640 with scale factor (0.8, 1.25) in xywh, and MixUp
wrapped in MaybeApply with rate 0.5 applied batchwise. -/
def augmenter : List AugLayer :=
  [.randomFlip "horizontal" "xywh",
   .jitteredResize (IMG_SIZE, IMG_SIZE) ((4 : Rat)/5, (5 : Rat)/4) "xywh",
   .maybeApply .mixUp ((1 : Rat)/2) true]

/-- The deterministic resizing layer mapped onto the evaluation pipeline:
Resizing to IMG_SIZE x IMG_SIZE in xywh format with pad_to_aspect_ratio set. -/
def evalResizing : AugLayer := .resizing IMG_SIZE IMG_SIZE "xywh" true

/-- An RGB pixel value, one rational per channel, in stored channel order. -/
abbrev Pixel := Rat × Rat × Rat

/-- An image: height, width and a flat list of pixel values. -/
structure Image where
  height : Nat
  width : Nat
  pixels : List Pixel
  deriving DecidableEq

/-- tf.keras.applications.resnet50.preprocess_input and
keras.applications.resnet.preprocess_input (they are the same function, in
caffe mode): flip RGB to BGR and subtract the ImageNet channel means
103.939, 116.779, 123.68 without scaling. -/
def preprocess_input (p : Pixel) : Pixel :=
  (p.2.2 - 103939/1000, p.2.1 - 116779/1000, p.1 - 12368/100)

/-- A ground-truth bounding box in the rel_yxyx format of the tfds dataset:
relative [ymin, xmin, ymax, xmax]. -/
structure RelBox where
  ymin : Rat
  xmin : Rat
  ymax : Rat
  xmax : Rat
  deriving DecidableEq

/-- Modelled from the spec: keras_cv.bounding_box.convert_format for source
format rel_yxyx and target format xywh (the bounding-box library of this
repository is not included beside the script; the spec only names a
bounding-box format conversion step). A relative [ymin, xmin, ymax, xmax]
box is scaled by the image width and height into absolute
[x, y, width, height]. -/
def convert_rel_yxyx_to_xywh (img : Image) (b : RelBox) : List Rat :=
  [b.xmin * (img.width : Rat),
   b.ymin * (img.height : Rat),
   (b.xmax - b.xmin) * (img.width : Rat),
   (b.ymax - b.ymin) * (img.height : Rat)]

/-- One raw tfds example: the image, the object bounding boxes in rel_yxyx
and the object class labels (already as numbers). -/
structure RawInput where
  image : Image
  bbox : List RelBox
  label : List Rat
  deriving DecidableEq

/-- The dictionary produced by the first unpackage_inputs of the script. -/
structure Unpacked where
  images : Image
  bounding_boxes : List (List Rat)
  deriving DecidableEq

/-- The first unpackage_inputs of the script, at bounding_box_format xywh
(the only format the script passes): cast the image to float and apply
resnet50 preprocess_input; convert the boxes from rel_yxyx to xywh using the
image size; cast the class labels to float, expand to a column and
concatenate onto the boxes along the last axis, so every row is the 4 box
coordinates followed by the class. -/
def unpackage_inputs_fmt (inp : RawInput) : Unpacked :=
  { images := { height := inp.image.height, width := inp.image.width,
                pixels := inp.image.pixels.map preprocess_input },
    bounding_boxes :=
      List.zipWith (fun b c => convert_rel_yxyx_to_xywh inp.image b ++ [c])
        inp.bbox inp.label }

/-- The pixel values an image carries after the data pipeline, i.e. after the
first unpackage_inputs has run. -/
def pipelineImagePixels (inp : RawInput) : List Pixel :=
  (unpackage_inputs_fmt inp).images.pixels

/-- The preprocessing the model graph itself applies to its Input tensor:
x = keras.applications.resnet.preprocess_input(x). -/
def modelGraphInput (pixels : List Pixel) : List Pixel :=
  pixels.map preprocess_input

/-- The pixel values actually reaching the ResNet50 backbone: the model-graph
preprocessing applied on top of the pipeline output. -/
def backboneInputPixels (inp : RawInput) : List Pixel :=
  modelGraphInput (pipelineImagePixels inp)

/-- Pad a list to exactly n elements with default d, truncating when it is
longer: the semantics of one axis of RaggedTensor.to_tensor with a fixed
shape. -/
def padTo : Nat → α → List α → List α
  | 0, _, _ => []
  | n + 1, d, [] => d :: padTo n d []
  | n + 1, d, x :: xs => x :: padTo n d xs

/-- boxes.to_tensor(default_value, shape=[b, rows, cols]): every axis is
padded with the default value, or truncated, to the given extent. -/
def to_tensor (b rows cols : Nat) (d : Rat) (x : List (List (List Rat))) :
    List (List (List Rat)) :=
  (padTo b [] x).map fun im => (padTo rows [] im).map fun r => padTo cols d r

/-- The padded targets pad_fn returns: the boxes tensor and the classes
tensor. -/
structure PaddedTargets where
  boxes : List (List (List Rat))
  classes : List (List Rat)
  deriving DecidableEq

/-- pad_fn of the script: convert the ragged boxes to a dense tensor of shape
[GLOBAL_BATCH_SIZE, 32, 5] with default value -1.0, then return the first 4
columns as boxes and column 4 as classes. The batch size is a parameter
here; the script instantiates it with GLOBAL_BATCH_SIZE. -/
def pad_fn (b : Nat) (image : α) (boxes : List (List (List Rat))) :
    α × PaddedTargets :=
  let t := to_tensor b 32 5 (-1) boxes
  (image,
    { boxes := t.map fun im => im.map fun r => r.take 4,
      classes := t.map fun im => im.map fun r => r.getD 4 (-1) })

/-- dense_to_ragged_batch with drop_remainder=True over a finite stream:
consecutive chunks of exactly b elements; a final shorter chunk is dropped. -/
def raggedBatchDrop (b : Nat) (l : List α) : List (List α) :=
  (List.range (l.length / b)).map fun i => (l.drop (i * b)).take b

/-- The weights of the assembled detector, split into the backbone weights
and the detection-head weights. -/
structure Weights where
  backbone : List Rat
  head : List Rat
  deriving DecidableEq

/-- One SGD update: w - lr * g elementwise. -/
def sgdUpdate (lr : Rat) (w g : List Rat) : List Rat :=
  List.zipWith (fun x gi => x - lr * gi) w g

/-- One training step of the compiled model. This models the documented
contract of the external framework that gradient updates are applied only to
variables whose trainable flag is set: when the backbone is frozen its
weights are left untouched and only the head weights are updated. -/
def trainStep (backboneTrainable : Bool) (lr : Rat) (w g : Weights) : Weights :=
  { backbone :=
      if backboneTrainable then sgdUpdate lr w.backbone g.backbone
      else w.backbone,
    head := sgdUpdate lr w.head g.head }

/-- The fit loop: fold trainStep over a sequence of per-step gradients. -/
def fitLoop (backboneTrainable : Bool) (lr : Rat) :
    Weights → List Weights → Weights
  | w, [] => w
  | w, g :: gs => fitLoop backboneTrainable lr (trainStep backboneTrainable lr w g) gs

/-- The backbone configuration of the script: keras.applications.ResNet50
with include_top=False and weights="imagenet". -/
structure BackboneCfg where
  arch : String
  weights : String
  includeTop : Bool
  deriving DecidableEq

/-- The RetinaNet configuration the script assembles, after the line
model.backbone.trainable = False that precedes compile. -/
structure RetinaNetCfg where
  classes : Nat
  bounding_box_format : String
  backbone : BackboneCfg
  backboneTrainable : Bool
  deriving DecidableEq

/-- The model of the script: RetinaNet with 20 classes in xywh format over a
pretrained ResNet50 backbone, with the backbone set non-trainable before
compile. -/
def scriptModel : RetinaNetCfg :=
  { classes := 20,
    bounding_box_format := "xywh",
    backbone := { arch := "ResNet50", weights := "imagenet", includeTop := false },
    backboneTrainable := false }

/-- A callback passed to fit, as configured by the script. -/
inductive Callback where
  | tensorBoard (logDir : String)
  | reduceLROnPlateau (patience : Nat)
  | earlyStopping (patience : Nat)
  | modelCheckpoint (filepath : String) (saveWeightsOnly : Bool)
  | pyCOCO (data : DatasetExpr) (format : String)
  deriving DecidableEq

/-- The callback list of the script. It takes the parsed flags as an
argument to record that, as in the source, none of the flag values flows
into it: TensorBoard logs to the literal "logs" and ModelCheckpoint writes
to CHECKPOINT_PATH. -/
def callbacks (numReplicas : Nat) (fl : Flags) : List Callback :=
  [.tensorBoard "logs",
   .reduceLROnPlateau 5,
   .earlyStopping 10,
   .modelCheckpoint CHECKPOINT_PATH true,
   .pyCOCO (eval_ds numReplicas) "xywh"]

/-- The arguments of the model.fit call. -/
structure FitCall where
  train : DatasetExpr
  validation_data : DatasetExpr
  epochs : Nat
  callbackList : List Callback
  deriving DecidableEq

/-- The model.fit call of the script: the training pipeline, the evaluation
pipeline as validation data, epochs=35 and the callback list. Like the
callback list it takes the parsed flags to record that they are unused. -/
def fit_call (numReplicas : Nat) (fl : Flags) : FitCall :=
  { train := train_ds numReplicas,
    validation_data := eval_ds numReplicas,
    epochs := 35,
    callbackList := callbacks numReplicas fl }

/- Helper lemmas about the padding and batching model. -/

theorem padTo_length : ∀ (n : Nat) (d : α) (l : List α), (padTo n d l).length = n
  | 0, _, _ => rfl
  | n + 1, d, [] => by simp [padTo, padTo_length n d []]
  | n + 1, d, _ :: xs => by simp [padTo, padTo_length n d xs]

theorem padTo_getD_lt : ∀ (n i : Nat) (d d0 : α) (l : List α), i < n → i < l.length →
    (padTo n d l).getD i d0 = l.getD i d0
  | 0, i, _, _, _, h1, _ => absurd h1 (Nat.not_lt_zero i)
  | _ + 1, _, _, _, [], _, h2 => absurd h2 (by simp)
  | _ + 1, 0, d, d0, x :: xs, _, _ => by simp [padTo]
  | n + 1, i + 1, d, d0, x :: xs, h1, h2 => by
      simpa [padTo] using
        padTo_getD_lt n i d d0 xs (Nat.lt_of_succ_lt_succ h1)
          (Nat.lt_of_succ_lt_succ (by simpa using h2))

theorem padTo_getD_ge : ∀ (n i : Nat) (d d0 : α) (l : List α), l.length ≤ i → i < n →
    (padTo n d l).getD i d0 = d
  | 0, i, _, _, _, _, h2 => absurd h2 (Nat.not_lt_zero i)
  | _ + 1, 0, d, d0, [], _, _ => by simp [padTo]
  | _ + 1, 0, _, _, _ :: _, h1, _ => absurd h1 (by simp)
  | n + 1, i + 1, d, d0, [], _, h2 => by
      simpa [padTo] using
        padTo_getD_ge n i d d0 [] (by simp) (Nat.lt_of_succ_lt_succ h2)
  | n + 1, i + 1, d, d0, x :: xs, h1, h2 => by
      simpa [padTo] using
        padTo_getD_ge n i d d0 xs (by simpa using h1) (Nat.lt_of_succ_lt_succ h2)

theorem getD_map_lt (f : α → β) (l : List α) (i : Nat) (h : i < l.length)
    (d : β) (d0 : α) : (l.map f).getD i d = f (l.getD i d0) := by
  rw [List.getD_eq_getElem _ _ (by simpa using h), List.getD_eq_getElem _ _ h,
    List.getElem_map]

theorem zipWith_getD_lt (f : α → β → γ) :
    ∀ (as : List α) (bs : List β) (i : Nat), i < as.length → i < bs.length →
    ∀ (d : γ) (da : α) (db : β),
    (List.zipWith f as bs).getD i d = f (as.getD i da) (bs.getD i db)
  | [], _, i, h1, _, _, _, _ => absurd h1 (by simp)
  | _ :: _, [], i, _, h2, _, _, _ => absurd h2 (by simp)
  | a :: as, b :: bs, 0, _, _, d, da, db => by simp
  | a :: as, b :: bs, i + 1, h1, h2, d, da, db => by
      simpa using
        zipWith_getD_lt f as bs i (by simpa using h1) (by simpa using h2) d da db

theorem raggedBatchDrop_mem_length (b : Nat) (hb : 0 < b) (l batch : List α)
    (h : batch ∈ raggedBatchDrop b l) : batch.length = b := by
  rcases List.mem_map.mp h with ⟨i, hi, rfl⟩
  rw [List.mem_range] at hi
  have h2 : (i + 1) * b ≤ l.length := (Nat.le_div_iff_mul_le hb).mp hi
  have h3 : b ≤ l.length - i * b := Nat.le_sub_of_add_le (by
    calc b + i * b = (i + 1) * b := by ring
    _ ≤ l.length := h2)
  simp only [List.length_take, List.length_drop]
  exact Nat.min_eq_left h3

theorem to_tensor_length (b rows cols : Nat) (d : Rat) (x : List (List (List Rat))) :
    (to_tensor b rows cols d x).length = b := by
  simp [to_tensor, padTo_length]

theorem to_tensor_getD (b rows cols : Nat) (d : Rat) (x : List (List (List Rat)))
    (i : Nat) (hi : i < b) :
    (to_tensor b rows cols d x).getD i [] =
      (padTo rows [] ((padTo b [] x).getD i [])).map fun r => padTo cols d r := by
  unfold to_tensor
  exact getD_map_lt _ _ i (by rw [padTo_length]; exact hi) _ []

theorem to_tensor_row_length (b rows cols : Nat) (d : Rat)
    (x : List (List (List Rat))) (i : Nat) (hi : i < b) :
    ((to_tensor b rows cols d x).getD i []).length = rows := by
  rw [to_tensor_getD b rows cols d x i hi]
  simp [padTo_length]

theorem to_tensor_entry (b rows cols : Nat) (d : Rat) (x : List (List (List Rat)))
    (i j : Nat) (hi : i < b) (hj : j < rows) :
    ((to_tensor b rows cols d x).getD i []).getD j [] =
      padTo cols d ((padTo rows [] ((padTo b [] x).getD i [])).getD j []) := by
  rw [to_tensor_getD b rows cols d x i hi]
  exact getD_map_lt _ _ j (by rw [padTo_length]; exact hj) _ []

theorem fitLoop_backbone_frozen :
    ∀ (gs : List Weights) (lr : Rat) (w : Weights),
    (fitLoop false lr w gs).backbone = w.backbone
  | [], _, _ => rfl
  | g :: gs, lr, w => by
      rw [fitLoop, fitLoop_backbone_frozen gs lr _]
      simp [trainStep]

/-- Claim C1: when TPUClusterResolver.connect succeeds the script uses
TPUStrategy; when it raises ValueError the script falls back to
MirroredStrategy; any exception other than ValueError propagates uncaught. -/
theorem claim_C1 :
    (∀ tpu : Nat, buildStrategy (.ok tpu) = .ok (.tpuStrategy tpu)) ∧
    buildStrategy (.error .valueError) = .ok .mirroredStrategy ∧
    (∀ msg : String, buildStrategy (.error (.other msg)) = .error (.other msg)) :=
  ⟨fun _ => rfl, rfl, fun _ => rfl⟩

/-- Claim C4: the pixels reaching the backbone are the raw pixels with ResNet
preprocess_input applied twice (once in the pipeline, once in the model
graph), and applying it twice differs from applying it exactly once. -/
theorem claim_C4 :
    (∀ inp : RawInput, backboneInputPixels inp =
        inp.image.pixels.map fun p => preprocess_input (preprocess_input p)) ∧
    preprocess_input (preprocess_input ((0 : Rat), (0 : Rat), (0 : Rat))) ≠
      preprocess_input ((0 : Rat), (0 : Rat), (0 : Rat)) := by
  constructor
  · intro inp
    simp [backboneInputPixels, modelGraphInput, pipelineImagePixels,
      unpackage_inputs_fmt, List.map_map, Function.comp]
  · norm_num [preprocess_input]

/-- Claim C5: random augmentation (RandomFlip, JitteredResize, MixUp at rate
0.5 per batch) is mapped only onto the training pipeline, the evaluation
pipeline only gets the deterministic 640x640 Resizing with pad to aspect
ratio, and only the training pipeline is shuffled. -/
theorem claim_C5 (R : Nat) :
    (train_ds R).mapped = [.unpackDict "xywh", .augmenterFn, .unpackTuple,
      .padFn (GLOBAL_BATCH_SIZE R)] ∧
    (eval_ds R).mapped = [.unpackDict "xywh", .evalResizingFn, .unpackTuple,
      .padFn (GLOBAL_BATCH_SIZE R)] ∧
    MapFn.augmenterFn ∉ (eval_ds R).mapped ∧
    MapFn.evalResizingFn ∉ (train_ds R).mapped ∧
    (train_ds R).shuffles = [8 * R] ∧
    (eval_ds R).shuffles = [] ∧
    augmenter = [.randomFlip "horizontal" "xywh",
      .jitteredResize (IMG_SIZE, IMG_SIZE) ((4 : Rat)/5, (5 : Rat)/4) "xywh",
      .maybeApply .mixUp ((1 : Rat)/2) true] ∧
    evalResizing = .resizing IMG_SIZE IMG_SIZE "xywh" true := by
  refine ⟨rfl, rfl, ?_, ?_, rfl, rfl, rfl, rfl⟩ <;>
    simp [train_ds, eval_ds, DatasetExpr.mapped]

/-- Claim C6: the training data is the concatenation of the train+validation
splits of voc/2007 and voc/2012, in that order, and the evaluation data is
the test split of voc/2007 only. -/
theorem claim_C6 (R : Nat) :
    (train_ds R).loadsList = [("voc/2007", "train+validation", true),
      ("voc/2012", "train+validation", true)] ∧
    (eval_ds R).loadsList = [("voc/2007", "test", false)] ∧
    (train_ds R).base = .concatenate (.load "voc/2007" "train+validation" true)
      (.load "voc/2012" "train+validation" true) ∧
    (eval_ds R).base = .load "voc/2007" "test" false :=
  ⟨rfl, rfl, rfl, rfl⟩

/-- Claim C7: the detector wraps a ResNet50 backbone with pretrained imagenet
weights, the backbone is set non-trainable before compile, and therefore
after any number of fit steps the backbone weights are unchanged while the
head weights do receive updates. -/
theorem claim_C7 :
    scriptModel.backboneTrainable = false ∧
    scriptModel.backbone.arch = "ResNet50" ∧
    scriptModel.backbone.weights = "imagenet" ∧
    (∀ (lr : Rat) (w : Weights) (gs : List Weights),
      (fitLoop scriptModel.backboneTrainable lr w gs).backbone = w.backbone) ∧
    (fitLoop scriptModel.backboneTrainable 1 ⟨[0], [0]⟩ [⟨[1], [1]⟩]).head = [-1] :=
  ⟨rfl, rfl, rfl, fun lr w gs => fitLoop_backbone_frozen gs lr w,
    by norm_num [fitLoop, trainStep, sgdUpdate, scriptModel]⟩

/-- Claim C8: fit is called with the evaluation pipeline as validation data
and a callback list containing ModelCheckpoint (save_weights_only, writing to
"checkpoint/"), the PyCOCO evaluation callback over the eval pipeline in
xywh, TensorBoard, ReduceLROnPlateau with patience 5, and EarlyStopping with
patience 10. -/
theorem claim_C8 (R : Nat) (fl : Flags) :
    Callback.modelCheckpoint CHECKPOINT_PATH true ∈ (fit_call R fl).callbackList ∧
    CHECKPOINT_PATH = "checkpoint/" ∧
    Callback.pyCOCO (eval_ds R) "xywh" ∈ (fit_call R fl).callbackList ∧
    Callback.tensorBoard "logs" ∈ (fit_call R fl).callbackList ∧
    Callback.reduceLROnPlateau 5 ∈ (fit_call R fl).callbackList ∧
    Callback.earlyStopping 10 ∈ (fit_call R fl).callbackList ∧
    (fit_call R fl).validation_data = eval_ds R := by
  refine ⟨?_, rfl, ?_, ?_, ?_, ?_, rfl⟩ <;> simp [fit_call, callbacks]

/-- Claim C9: the two flags the script defines are parsed but never read: two
runs differing only in the flag values produce the identical fit call, the
checkpoint path is the literal "checkpoint/" and the TensorBoard log
directory is the literal "logs". -/
theorem claim_C9 (R : Nat) (fl fl2 : Flags) :
    fit_call R fl = fit_call R fl2 ∧
    callbacks R fl = callbacks R fl2 ∧
    Callback.modelCheckpoint "checkpoint/" true ∈ callbacks R fl ∧
    Callback.tensorBoard "logs" ∈ callbacks R fl ∧
    scriptFlagDefs = [⟨"weights_name", "weights_\x7bepoch:02d\x7d.h5"⟩,
      ⟨"tensorboard_path", "logs"⟩] := by
  refine ⟨rfl, rfl, ?_, ?_, rfl⟩ <;> simp [callbacks, CHECKPOINT_PATH]

/-- Claim C10: the fit loop runs for the literal 35 epochs, not for the
module-level constant EPOCHS = 100, which is defined but never used. -/
theorem claim_C10 (R : Nat) (fl : Flags) :
    (fit_call R fl).epochs = 35 ∧ EPOCHS = 100 ∧ (fit_call R fl).epochs ≠ EPOCHS :=
  ⟨rfl, rfl, by simp [fit_call, EPOCHS]⟩

theorem pad_fn_boxes_def (b : Nat) (img : α) (boxes : List (List (List Rat))) :
    (pad_fn b img boxes).2.boxes =
      (to_tensor b 32 5 (-1) boxes).map fun im => im.map fun r => r.take 4 := rfl

theorem pad_fn_classes_def (b : Nat) (img : α) (boxes : List (List (List Rat))) :
    (pad_fn b img boxes).2.classes =
      (to_tensor b 32 5 (-1) boxes).map fun im => im.map fun r => r.getD 4 (-1) := rfl

theorem pad_fn_boxes_getD (b : Nat) (img : α) (boxes : List (List (List Rat)))
    (i j : Nat) (hi : i < b) (hj : j < 32) :
    ((pad_fn b img boxes).2.boxes.getD i []).getD j [] =
      (((to_tensor b 32 5 (-1) boxes).getD i []).getD j []).take 4 := by
  rw [pad_fn_boxes_def,
    getD_map_lt _ _ i (by rw [to_tensor_length]; exact hi) _ []]
  exact getD_map_lt _ _ j
    (by rw [to_tensor_row_length b 32 5 (-1) boxes i hi]; exact hj) _ []

theorem pad_fn_classes_getD (b : Nat) (img : α) (boxes : List (List (List Rat)))
    (i j : Nat) (hi : i < b) (hj : j < 32) :
    ((pad_fn b img boxes).2.classes.getD i []).getD j 0 =
      (((to_tensor b 32 5 (-1) boxes).getD i []).getD j []).getD 4 (-1) := by
  rw [pad_fn_classes_def,
    getD_map_lt _ _ i (by rw [to_tensor_length]; exact hi) _ []]
  exact getD_map_lt _ _ j
    (by rw [to_tensor_row_length b 32 5 (-1) boxes i hi]; exact hj) _ []

theorem to_tensor_entry_pad (b : Nat) (boxes : List (List (List Rat)))
    (i j : Nat) (hi : i < b) (hj : j < 32)
    (hpad : (boxes.getD i []).length ≤ j) :
    ((to_tensor b 32 5 (-1) boxes).getD i []).getD j [] = [-1, -1, -1, -1, -1] := by
  rw [to_tensor_entry b 32 5 (-1) boxes i j hi hj]
  have hQ : (padTo 32 ([] : List Rat) ((padTo b [] boxes).getD i [])).getD j [] = [] := by
    rcases Nat.lt_or_ge i boxes.length with hc | hc
    · rw [padTo_getD_lt b i [] [] boxes hi hc]
      exact padTo_getD_ge 32 j [] [] (boxes.getD i []) hpad hj
    · rw [padTo_getD_ge b i [] [] boxes hc hi]
      exact padTo_getD_ge 32 j [] [] [] (by simp) hj
  rw [hQ]
  rfl

theorem to_tensor_entry_data (b : Nat) (boxes : List (List (List Rat)))
    (i j : Nat) (hi : i < b) (hj : j < 32)
    (hdata : j < (boxes.getD i []).length) :
    ((to_tensor b 32 5 (-1) boxes).getD i []).getD j [] =
      padTo 5 (-1) ((boxes.getD i []).getD j []) := by
  rw [to_tensor_entry b 32 5 (-1) boxes i j hi hj]
  have hi2 : i < boxes.length := by
    by_contra hc
    push_neg at hc
    rw [List.getD_eq_default _ _ hc] at hdata
    simp at hdata
  rw [padTo_getD_lt b i [] [] boxes hi hi2,
    padTo_getD_lt 32 j [] [] (boxes.getD i []) hj hdata]

/-- Claim C2: pad_fn is mapped onto both pipelines, both batch with
drop_remainder at GLOBAL_BATCH_SIZE (so every batch has exactly
GLOBAL_BATCH_SIZE examples), and pad_fn densifies the ragged boxes to shape
[GLOBAL_BATCH_SIZE, 32, 5] with padding value -1, returning the first 4
columns as boxes and column 4 as classes: each row inside the original data
keeps its 4 coordinates and class, and each row beyond it is all -1. -/
theorem claim_C2 (R : Nat) (hR : 0 < R)
    (l batch : List Nat) (hbatch : batch ∈ raggedBatchDrop (GLOBAL_BATCH_SIZE R) l)
    (img : Image) (boxes : List (List (List Rat)))
    (i j : Nat) (hi : i < GLOBAL_BATCH_SIZE R) (hj : j < 32) :
    MapFn.padFn (GLOBAL_BATCH_SIZE R) ∈ (train_ds R).mapped ∧
    MapFn.padFn (GLOBAL_BATCH_SIZE R) ∈ (eval_ds R).mapped ∧
    (train_ds R).batchings = [(GLOBAL_BATCH_SIZE R, true)] ∧
    (eval_ds R).batchings = [(GLOBAL_BATCH_SIZE R, true)] ∧
    batch.length = GLOBAL_BATCH_SIZE R ∧
    (pad_fn (GLOBAL_BATCH_SIZE R) img boxes).1 = img ∧
    (pad_fn (GLOBAL_BATCH_SIZE R) img boxes).2.boxes.length = GLOBAL_BATCH_SIZE R ∧
    (pad_fn (GLOBAL_BATCH_SIZE R) img boxes).2.classes.length = GLOBAL_BATCH_SIZE R ∧
    ((pad_fn (GLOBAL_BATCH_SIZE R) img boxes).2.boxes.getD i []).length = 32 ∧
    ((pad_fn (GLOBAL_BATCH_SIZE R) img boxes).2.classes.getD i []).length = 32 ∧
    (((pad_fn (GLOBAL_BATCH_SIZE R) img boxes).2.boxes.getD i []).getD j []).length = 4 ∧
    ((boxes.getD i []).length ≤ j →
      ((pad_fn (GLOBAL_BATCH_SIZE R) img boxes).2.boxes.getD i []).getD j [] =
          [-1, -1, -1, -1] ∧
      ((pad_fn (GLOBAL_BATCH_SIZE R) img boxes).2.classes.getD i []).getD j 0 = -1) ∧
    (∀ x1 x2 x3 x4 x5 : Rat, j < (boxes.getD i []).length →
      (boxes.getD i []).getD j [] = [x1, x2, x3, x4, x5] →
      ((pad_fn (GLOBAL_BATCH_SIZE R) img boxes).2.boxes.getD i []).getD j [] =
          [x1, x2, x3, x4] ∧
      ((pad_fn (GLOBAL_BATCH_SIZE R) img boxes).2.classes.getD i []).getD j 0 = x5) := by
  have hBpos : 0 < GLOBAL_BATCH_SIZE R :=
    Nat.mul_pos (by decide) hR
  refine ⟨by simp [train_ds, DatasetExpr.mapped],
    by simp [eval_ds, DatasetExpr.mapped], rfl, rfl,
    raggedBatchDrop_mem_length _ hBpos l batch hbatch, rfl,
    ?_, ?_, ?_, ?_, ?_, ?_, ?_⟩
  · rw [pad_fn_boxes_def]
    simp [to_tensor_length]
  · rw [pad_fn_classes_def]
    simp [to_tensor_length]
  · rw [pad_fn_boxes_def,
      getD_map_lt _ _ i (by rw [to_tensor_length]; exact hi) _ []]
    rw [List.length_map, to_tensor_row_length _ 32 5 (-1) boxes i hi]
  · rw [pad_fn_classes_def,
      getD_map_lt _ _ i (by rw [to_tensor_length]; exact hi) _ []]
    rw [List.length_map, to_tensor_row_length _ 32 5 (-1) boxes i hi]
  · rw [pad_fn_boxes_getD _ img boxes i j hi hj]
    have h5 : (((to_tensor (GLOBAL_BATCH_SIZE R) 32 5 (-1) boxes).getD i []).getD j []).length = 5 := by
      rw [to_tensor_entry _ 32 5 (-1) boxes i j hi hj, padTo_length]
    rw [List.length_take, h5]
    decide
  · intro hpad
    rw [pad_fn_boxes_getD _ img boxes i j hi hj,
      pad_fn_classes_getD _ img boxes i j hi hj,
      to_tensor_entry_pad _ boxes i j hi hj hpad]
    constructor <;> rfl
  · intro x1 x2 x3 x4 x5 hdata hrow
    rw [pad_fn_boxes_getD _ img boxes i j hi hj,
      pad_fn_classes_getD _ img boxes i j hi hj,
      to_tensor_entry_data _ boxes i j hi hj hdata, hrow]
    constructor <;> rfl

/-- Claim C2 witness: at one replica (global batch size 4), a stream of 5
elements yields one full batch of length 4, and pad_fn on one image with one
box [1, 2, 3, 4, 5] keeps [1, 2, 3, 4] as its boxes row and 5 as its class,
and pads the next row with -1. -/
theorem claim_C2_witness :
    ([0, 1, 2, 3] : List Nat).length = GLOBAL_BATCH_SIZE 1 ∧
    ((pad_fn (GLOBAL_BATCH_SIZE 1) (⟨1, 1, []⟩ : Image)
        [[[1, 2, 3, 4, 5]]]).2.boxes.getD 0 []).getD 0 [] = [1, 2, 3, 4] ∧
    ((pad_fn (GLOBAL_BATCH_SIZE 1) (⟨1, 1, []⟩ : Image)
        [[[1, 2, 3, 4, 5]]]).2.classes.getD 0 []).getD 0 0 = 5 ∧
    ((pad_fn (GLOBAL_BATCH_SIZE 1) (⟨1, 1, []⟩ : Image)
        [[[1, 2, 3, 4, 5]]]).2.boxes.getD 0 []).getD 1 [] = [-1, -1, -1, -1] := by
  have h := claim_C2 1 (by decide) [0, 1, 2, 3, 4] [0, 1, 2, 3] (by decide)
    ⟨1, 1, []⟩ [[[1, 2, 3, 4, 5]]] 0 0 (by decide) (by decide)
  have h2 := claim_C2 1 (by decide) [0, 1, 2, 3, 4] [0, 1, 2, 3] (by decide)
    ⟨1, 1, []⟩ [[[1, 2, 3, 4, 5]]] 0 1 (by decide) (by decide)
  obtain ⟨-, -, -, -, h5, -, -, -, -, -, -, -, h13⟩ := h
  obtain ⟨-, -, -, -, -, -, -, -, -, -, -, h12, -⟩ := h2
  have hd := h13 1 2 3 4 5 (by decide) rfl
  exact ⟨h5, hd.1, hd.2, (h12 (by decide)).1⟩

/-- Claim C3: both pipelines convert ground-truth boxes from rel_yxyx to
xywh via the first unpackage_inputs, xywh is also the format given to the
model, the augmentation layers and the evaluation callback, and the class
label is appended as a 5th coordinate after the 4 box coordinates. -/
theorem claim_C3 (R : Nat) (fl : Flags) (inp : RawInput) (i : Nat)
    (hib : i < inp.bbox.length) (hil : i < inp.label.length) :
    MapFn.unpackDict "xywh" ∈ (train_ds R).mapped ∧
    MapFn.unpackDict "xywh" ∈ (eval_ds R).mapped ∧
    scriptModel.bounding_box_format = "xywh" ∧
    Callback.pyCOCO (eval_ds R) "xywh" ∈ callbacks R fl ∧
    augmenter = [.randomFlip "horizontal" "xywh",
      .jitteredResize (IMG_SIZE, IMG_SIZE) ((4 : Rat)/5, (5 : Rat)/4) "xywh",
      .maybeApply .mixUp ((1 : Rat)/2) true] ∧
    evalResizing = .resizing IMG_SIZE IMG_SIZE "xywh" true ∧
    (unpackage_inputs_fmt inp).bounding_boxes.getD i [] =
      convert_rel_yxyx_to_xywh inp.image (inp.bbox.getD i ⟨0, 0, 0, 0⟩) ++
        [inp.label.getD i 0] ∧
    ((unpackage_inputs_fmt inp).bounding_boxes.getD i []).length = 5 := by
  have he : (unpackage_inputs_fmt inp).bounding_boxes.getD i [] =
      convert_rel_yxyx_to_xywh inp.image (inp.bbox.getD i ⟨0, 0, 0, 0⟩) ++
        [inp.label.getD i 0] :=
    zipWith_getD_lt (fun b c => convert_rel_yxyx_to_xywh inp.image b ++ [c])
      inp.bbox inp.label i hib hil [] ⟨0, 0, 0, 0⟩ 0
  refine ⟨by simp [train_ds, DatasetExpr.mapped],
    by simp [eval_ds, DatasetExpr.mapped], rfl, by simp [callbacks],
    rfl, rfl, he, ?_⟩
  rw [he]
  simp [convert_rel_yxyx_to_xywh]

/-- Claim C3 witness: on a 100x200 image with one relative box
[0, 0, 1, 1] of class 7, the first unpackage_inputs produces the single
row [0, 0, 200, 100, 7]: the xywh box followed by the class. -/
theorem claim_C3_witness :
    (unpackage_inputs_fmt ⟨⟨100, 200, []⟩, [⟨0, 0, 1, 1⟩], [7]⟩).bounding_boxes.getD 0 [] =
      [0, 0, 200, 100, 7] := by
  have h := claim_C3 1 ⟨"w", "t"⟩ ⟨⟨100, 200, []⟩, [⟨0, 0, 1, 1⟩], [7]⟩ 0
    (by decide) (by decide)
  rw [h.2.2.2.2.2.2.1]
  norm_num [convert_rel_yxyx_to_xywh]
